import Mathlib

/-!
Verification of the 3D scene interaction core of the ensnano repository:
the scene data layer (selection and candidate state, granularity expansion,
dirty flags) from src/scene/data.rs, the input controller from
src/scene/controller.rs, and the picking dispatch from src/scene.rs.

The design-topology collaborator (module design3d, crate design) is not part
of the sources; following the specification, its read-only query interface is
modelled abstractly and the theorems take its consistency as hypotheses.
-/

namespace Ensnano

/-- Modelled from the spec: the rendered primitive kind of an element, either a
nucleotide sphere or an inter-nucleotide bond (tube).  Mirrors the usage
ObjectType::Nucleotide(id) and ObjectType::Bound(a, b) of crate design, whose
source is an external collaborator. -/
inductive ObjectType where
  | Nucleotide (id : Nat)
  | Bound (a b : Nat)
  deriving Repr, DecidableEq

/-- Modelled from the spec: same_type compares the primitive kind (point vs
bond) of two ObjectType values, ignoring the carried identifiers. -/
def ObjectType.same_type : ObjectType → ObjectType → Bool
  | .Nucleotide _, .Nucleotide _ => true
  | .Bound _ _, .Bound _ _ => true
  | _, _ => false

/-- Modelled from the spec: the point of view in which a position is queried,
world space or model space (crate design, external collaborator). -/
inductive Referential where
  | World
  | Model
  deriving Repr, DecidableEq

/-- Positions handed back by the design layer (ultraviolet Vec3 values).  The
claims never compute with coordinates, so the three components are modelled as
exact rationals. -/
structure Vec3 where
  x : ℚ
  y : ℚ
  z : ℚ
  deriving Repr, DecidableEq

/-- The kind of selection being performed on the scene (scene/data.rs). -/
inductive SelectionMode where
  | Nucleotide
  | Design
  | Strand
  | Helix
  deriving Repr, DecidableEq

/-- Default selection mode is Nucleotide (scene/data.rs, impl Default). -/
def SelectionMode.default : SelectionMode := SelectionMode.Nucleotide

/-- The action currently done by the user on a left click (scene/data.rs). -/
inductive ActionMode where
  | Normal
  | Translate
  | Rotate
  | Build
  deriving Repr, DecidableEq

/-- Default action mode is Normal (scene/data.rs, impl Default). -/
def ActionMode.default : ActionMode := ActionMode.Normal

/-- Orientation frame for the manipulation widget (scene/data.rs). -/
inductive WidgetBasis where
  | World
  | Object
  deriving Repr, DecidableEq

/-- WidgetBasis::toggle of scene/data.rs. -/
def WidgetBasis.toggle : WidgetBasis → WidgetBasis
  | .World => .Object
  | .Object => .World

/-- The selection emitted by Data::set_selection (crate mediator Selection,
variants as used in scene/data.rs). -/
inductive Selection where
  | Nucleotide (design_id group_id : Nat)
  | Design (design_id : Nat)
  | Strand (design_id group_id : Nat)
  | Helix (design_id group_id : Nat)
  deriving Repr, DecidableEq

/-- Modelled from the spec: the read-only query interface of a Design3D
(module scene/data/design3d.rs, absent from the sources).  Section 6 of the
spec lists exactly these queries: owning strand id, owning helix id, full
element-id set, per-strand and per-helix element sets, element type, and
element position.  Element sets are genuine sets (HashSet in the source). -/
structure Design3D where
  get_strand : Nat → Nat
  get_helix : Nat → Nat
  get_all_elements : Finset Nat
  get_strand_elements : Nat → Finset Nat
  get_helix_elements : Nat → Finset Nat
  get_element_type : Nat → Option ObjectType
  get_element_position : Nat → Referential → Option Vec3

/-- Data::get_group_identifier of scene/data.rs: the group to which an element
belongs, depending on the selection mode.  The source indexes
self.designs[design_id], which panics when the index is out of bounds; the
model returns none in that case. -/
def get_group_identifier (designs : List Design3D) (mode : SelectionMode)
    (design_id element_id : Nat) : Option Nat :=
  match mode with
  | .Nucleotide => some element_id
  | .Design => some design_id
  | .Strand => (designs.get? design_id).map fun d => d.get_strand element_id
  | .Helix => (designs.get? design_id).map fun d => d.get_helix element_id

/-- Data::get_group_member of scene/data.rs: the set of elements in a given
group.  As in get_group_identifier, an out-of-bounds design index is a panic,
modelled by none. -/
def get_group_member (designs : List Design3D) (mode : SelectionMode)
    (design_id group_id : Nat) : Option (Finset Nat) :=
  match mode with
  | .Nucleotide => some {group_id}
  | .Design => (designs.get? design_id).map fun d => d.get_all_elements
  | .Strand => (designs.get? design_id).map fun d => d.get_strand_elements group_id
  | .Helix => (designs.get? design_id).map fun d => d.get_helix_elements group_id

/-- Consistency of the design-topology queries, as assumed by the spec: every
element of the design is listed among the design's elements, among the
elements of its owning strand, and among the elements of its owning helix. -/
def Design3D.ConsistentAt (d : Design3D) (element_id : Nat) : Prop :=
  element_id ∈ d.get_all_elements
    ∧ element_id ∈ d.get_strand_elements (d.get_strand element_id)
    ∧ element_id ∈ d.get_helix_elements (d.get_helix element_id)

/-- A tiny concrete design used to instantiate theorems: two elements 0 and 1,
all on strand 0 and helix 0. -/
def sampleDesign : Design3D where
  get_strand := fun _ => 0
  get_helix := fun _ => 0
  get_all_elements := {0, 1}
  get_strand_elements := fun _ => {0, 1}
  get_helix_elements := fun _ => {0, 1}
  get_element_type := fun _ => some (ObjectType.Nucleotide 0)
  get_element_position := fun _ _ => some ⟨0, 0, 0⟩

/-- The state of the Data structure of scene/data.rs.  The view pointer is an
external renderer handle; the view updates Data issues are modelled separately
as an explicit list of issued update kinds (see Data.update_view). -/
structure Data where
  designs : List Design3D
  selected : List (Nat × Nat)
  candidates : List (Nat × Nat)
  selection_mode : SelectionMode
  action_mode : ActionMode
  selected_position : Option Vec3
  selection_update : Bool
  candidate_update : Bool
  instance_update : Bool
  matrices_update : Bool
  widget_basis : Option WidgetBasis

/-- Data::new of scene/data.rs. -/
def Data.new : Data where
  designs := []
  selected := []
  candidates := []
  selection_mode := SelectionMode.default
  action_mode := ActionMode.default
  selected_position := none
  selection_update := false
  candidate_update := false
  instance_update := false
  matrices_update := false
  widget_basis := none

/-- Data::get_element_position of scene/data.rs: indexes self.designs (panic
when out of bounds, modelled by none) and unwraps the design's answer (panic
when the design has no position for the element, modelled by none). -/
def Data.get_element_position (s : Data) (design_id element_id : Nat)
    (referential : Referential) : Option Vec3 :=
  (s.designs.get? design_id).bind fun d => d.get_element_position element_id referential

/-- The value self.selected.get(0).map(get_element_position of the head) used
by Data::set_selection and Data::end_movement.  The outer some is success of
the computation (none is the panic of the inner unwrap); the inner option is
the value assigned to selected_position. -/
def Data.selected_head_position (s : Data) : Option (Option Vec3) :=
  match s.selected.head? with
  | none => some none
  | some (design_id, element_id) =>
      (Data.get_element_position s design_id element_id Referential.World).map some

/-- The Selection value returned by Data::set_selection, by selection mode. -/
def selection_of_mode (mode : SelectionMode) (design_id group_id : Nat) : Selection :=
  match mode with
  | .Design => Selection.Design design_id
  | .Strand => Selection.Strand design_id group_id
  | .Nucleotide => Selection.Nucleotide design_id group_id
  | .Helix => Selection.Helix design_id group_id

/-- Data::set_selection of scene/data.rs.  If the future selection equals the
current one the widget basis is toggled, otherwise the basis is reset to World
and the selection_update flag is set; then selected is replaced, the selected
position is recomputed, and the selection of the group is returned.  The
position query and (in Strand and Helix modes) the group-identifier query
index the design list and unwrap; their panics are modelled by none. -/
def Data.set_selection (s : Data) (design_id element_id : Nat) :
    Option (Data × Selection) :=
  let future_selection : List (Nat × Nat) := [(design_id, element_id)]
  let s1 :=
    if s.selected = future_selection then
      { s with widget_basis := s.widget_basis.map WidgetBasis.toggle }
    else
      { s with widget_basis := some WidgetBasis.World, selection_update := true }
  let s2 := { s1 with selected := future_selection }
  (Data.selected_head_position s2).bind fun pos =>
    let s3 := { s2 with selected_position := pos }
    (get_group_identifier s3.designs s3.selection_mode design_id element_id).map
      fun group_id => (s3, selection_of_mode s3.selection_mode design_id group_id)

/-- Data::end_movement of scene/data.rs: recompute selected_position from the
head of the current selection. -/
def Data.end_movement (s : Data) : Option Data :=
  (Data.selected_head_position s).map fun pos => { s with selected_position := pos }

/-- Data::reset_selection of scene/data.rs. -/
def Data.reset_selection (s : Data) : Data :=
  { s with selection_update := s.selection_update || !s.selected.isEmpty,
           selected_position := none,
           selected := [] }

/-- Data::set_candidate of scene/data.rs, translated exactly as written: the
candidate_update flag is or-ed with the comparison of the current candidates
against the future singleton. -/
def Data.set_candidate (s : Data) (design_id element_id : Nat) : Data :=
  let future_candidate : List (Nat × Nat) := [(design_id, element_id)]
  { s with candidate_update := s.candidate_update || decide (s.candidates = future_candidate),
           candidates := future_candidate }

/-- Data::reset_candidate of scene/data.rs. -/
def Data.reset_candidate (s : Data) : Data :=
  { s with candidate_update := s.candidate_update || !s.candidates.isEmpty,
           candidates := [] }

/-- Data::notify_instance_update of scene/data.rs. -/
def Data.notify_instance_update (s : Data) : Data :=
  { s with instance_update := true }

/-- Data::notify_matrices_update of scene/data.rs. -/
def Data.notify_matrices_update (s : Data) : Data :=
  { s with matrices_update := true }

/-- Data::add_design of scene/data.rs: push a new Design3D and notify the
instance and matrices updates. -/
def Data.add_design (s : Data) (design : Design3D) : Data :=
  Data.notify_matrices_update
    (Data.notify_instance_update { s with designs := s.designs ++ [design] })

/-- Data::clear_designs of scene/data.rs: empty the designs, selected and
candidates lists, then reset selection and candidate, then notify the instance
and matrices updates. -/
def Data.clear_designs (s : Data) : Data :=
  Data.notify_matrices_update
    (Data.notify_instance_update
      (Data.reset_candidate
        (Data.reset_selection { s with designs := [], selected := [], candidates := [] })))

/-- Data::toggle_selection_mode of scene/data.rs. -/
def Data.toggle_selection_mode (s : Data) : Data :=
  { s with selection_mode :=
      match s.selection_mode with
      | .Nucleotide => .Design
      | .Design => .Strand
      | .Strand => .Helix
      | .Helix => .Nucleotide }

/-- Data::toggle_widget_basis of scene/data.rs: toggles the basis when one is
present, does nothing otherwise. -/
def Data.toggle_widget_basis (s : Data) : Data :=
  { s with widget_basis := s.widget_basis.map WidgetBasis.toggle }

/-- The kinds of view update issued by Data::update_view (the payloads go to
the external renderer and are not part of the model). -/
inductive ViewUpdateKind where
  | instances
  | selection
  | candidate
  | matrices
  deriving Repr, DecidableEq

/-- Data::update_view of scene/data.rs: for each set flag, in the order
instances, selection, candidate, matrices, issue the corresponding view update
and clear the flag.  The private update functions (update_instances,
update_selection, update_candidate, update_matrices) write only to the
external view, so they are modelled by the emitted ViewUpdateKind. -/
def Data.update_view (s : Data) : Data × List ViewUpdateKind :=
  let step1 :=
    if s.instance_update then
      ({ s with instance_update := false }, [ViewUpdateKind.instances])
    else (s, [])
  let step2 :=
    if step1.1.selection_update then
      ({ step1.1 with selection_update := false }, step1.2 ++ [ViewUpdateKind.selection])
    else step1
  let step3 :=
    if step2.1.candidate_update then
      ({ step2.1 with candidate_update := false }, step2.2 ++ [ViewUpdateKind.candidate])
    else step2
  if step3.1.matrices_update then
    ({ step3.1 with matrices_update := false }, step3.2 ++ [ViewUpdateKind.matrices])
  else step3

/-- Option of ObjectType matched against an object type, as in the loop body
of Data::expand_selection: the some case is same_type after the unwrap, the
none case only arises under a panic that expand_one rules out beforehand. -/
def same_type_opt : Option ObjectType → ObjectType → Bool
  | some t, u => t.same_type u
  | none, _ => false

/-- One iteration of the outer loop of Data::expand_selection: compute the
group identifier and the group of one selected element, then keep the members
whose element type matches object_type, tagged with the design id.  none
models the panics of the source: an out-of-bounds design index (note that the
group is non-empty in Nucleotide mode, so the per-element indexing of the
designs list always runs there), or an element without a type. -/
def Data.expand_one (designs : List Design3D) (mode : SelectionMode)
    (object_type : ObjectType) (p : Nat × Nat) : Option (Finset (Nat × Nat)) :=
  (get_group_identifier designs mode p.1 p.2).bind fun group_id =>
    (get_group_member designs mode p.1 group_id).bind fun group =>
      (designs.get? p.1).bind fun d =>
        if ∀ e ∈ group, (d.get_element_type e).isSome then
          some ((group.filter fun e => same_type_opt (d.get_element_type e) object_type).image
            fun e => (p.1, e))
        else none

/-- Data::expand_selection of scene/data.rs: union over the selected elements
of their expanded groups filtered by object type.  The result set is a
HashSet in the source, modelled as a Finset. -/
def Data.expand_selection (s : Data) (object_type : ObjectType) :
    Option (Finset (Nat × Nat)) :=
  s.selected.foldl
    (fun acc p => acc.bind fun ret =>
      (Data.expand_one s.designs s.selection_mode object_type p).map fun g => ret ∪ g)
    (some ∅)

/-- States of the Data structure reachable through the public mutation
operations named by the specification: the initial state, set_selection,
reset_selection, end_movement, clear_designs and add_design (the fallible
operations contribute only their successful outcomes; a panic aborts). -/
inductive Data.Reach : Data → Prop
  | new : Data.Reach Data.new
  | set_selection (s : Data) (design_id element_id : Nat) (s' : Data) (sel : Selection) :
      Data.Reach s → s.set_selection design_id element_id = some (s', sel) → Data.Reach s'
  | reset_selection (s : Data) : Data.Reach s → Data.Reach s.reset_selection
  | end_movement (s s' : Data) : Data.Reach s → s.end_movement = some s' → Data.Reach s'
  | clear_designs (s : Data) : Data.Reach s → Data.Reach s.clear_designs
  | add_design (s : Data) (d : Design3D) : Data.Reach s → Data.Reach (s.add_design d)

/-- A concrete state in which the single element (0, 0) is already selected,
its widget basis is World, and no flag is set; used to instantiate the
re-selection theorem. -/
def reselectionState : Data :=
  { Data.new with
      designs := [sampleDesign]
      selected := [(0, 0)]
      selected_position := some ⟨0, 0, 0⟩
      widget_basis := some WidgetBasis.World }

/-- A state whose selection lists the elements (0, 0) and (0, 1) of the sample
design in Strand mode. -/
def expandStateA : Data :=
  { Data.new with
      designs := [sampleDesign]
      selection_mode := SelectionMode.Strand
      selected := [(0, 0), (0, 1)] }

/-- The state expandStateA with its selected sequence permuted and an entry
duplicated. -/
def expandStateB : Data :=
  { Data.new with
      designs := [sampleDesign]
      selection_mode := SelectionMode.Strand
      selected := [(0, 1), (0, 0), (0, 0)] }

/-- Model of the f64 pixel coordinates handled by the controller of
scene/controller.rs: either the quiet NaN introduced by the NO_POS sentinel,
or a finite value modelled as an exact rational.  The operations below follow
the IEEE and Rust f64 semantics on these values. -/
inductive FP where
  | nan
  | val (q : ℚ)
  deriving Repr, DecidableEq

/-- Subtraction: NaN propagates. -/
def FP.sub : FP → FP → FP
  | .nan, _ => .nan
  | _, .nan => .nan
  | .val a, .val b => .val (a - b)

/-- Absolute value: NaN propagates. -/
def FP.abs : FP → FP
  | .nan => .nan
  | .val a => .val |a|

/-- Rust f64::max: when one operand is NaN the other operand is returned, so
the result is NaN only when both are. -/
def FP.max : FP → FP → FP
  | .nan, b => b
  | .val a, .nan => .val a
  | .val a, .val b => .val (Max.max a b)

/-- IEEE comparison: every comparison involving NaN is false. -/
def FP.lt : FP → FP → Bool
  | .val a, .val b => decide (a < b)
  | _, _ => false

/-- Division, used only for the normalized logical mouse position.  A zero
divisor yields a non-finite IEEE value (an infinity or NaN), collapsed to nan
here; no claim inspects these payloads. -/
def FP.div : FP → FP → FP
  | .val a, .val b => if b = 0 then .nan else .val (a / b)
  | _, _ => .nan

/-- PhysicalPosition of winit, with f64 coordinates. -/
structure PhysicalPosition where
  x : FP
  y : FP
  deriving Repr, DecidableEq

/-- NO_POS of scene/controller.rs: PhysicalPosition::new(f64::NAN, f64::NAN). -/
def NO_POS : PhysicalPosition := ⟨FP.nan, FP.nan⟩

/-- position_difference of scene/controller.rs: the Chebyshev distance
(a.x - b.x).abs().max((a.y - b.y).abs()). -/
def position_difference (a b : PhysicalPosition) : FP :=
  FP.max (FP.abs (FP.sub a.x b.x)) (FP.abs (FP.sub a.y b.y))

/-- ElementState of winit as used by the controller. -/
inductive ElementState where
  | Pressed
  | Released
  deriving Repr, DecidableEq

/-- HandleDir variants used by the controller (Right, Up, Dir). -/
inductive HandleDir where
  | Right
  | Up
  | Dir
  deriving Repr, DecidableEq

/-- WidgetRotationMode variants used by the controller (Right, Up, Front). -/
inductive RotationMode where
  | Right
  | Up
  | Front
  deriving Repr, DecidableEq

/-- Modelled from the spec: the active strand-builder probe offered by the
design layer (crate design StrandBuilder, an external collaborator); its
contents are irrelevant to the controller claims, only its presence counts. -/
structure StrandBuilder where
  id : Nat
  deriving Repr, DecidableEq

/-- The State enum of scene/controller.rs. -/
inductive State where
  | MoveCamera
  | Translate (dir : HandleDir)
  | Rotate (mode : RotationMode)
  | TogglingWidget
  | Building (builder : StrandBuilder)
  deriving Repr, DecidableEq

/-- The Consequence enum of scene/controller.rs. -/
inductive Consequence where
  | CameraMoved
  | PixelSelected (pos : PhysicalPosition)
  | Translation (dir : HandleDir) (x y : FP)
  | MovementEnded
  | Rotation (mode : RotationMode) (x y : FP)
  | InitRotation (x y : FP)
  | InitTranslation (x y : FP)
  | Swing (x y : FP)
  | Nothing
  | CursorMoved (pos : PhysicalPosition)
  | ToggleWidget
  deriving Repr, DecidableEq

/-- The fields of the Controller of scene/controller.rs read or written on the
left-mouse-button path.  The view, data and camera-controller handles are
external collaborators (CameraController::process_click mutates only camera
state); window_size and click_mode are not read on this path.  The modifier
sets are modelled as opaque bit sets. -/
structure Controller where
  last_left_clicked_position : Option PhysicalPosition
  last_right_clicked_position : Option PhysicalPosition
  mouse_position : PhysicalPosition
  area_width : Nat
  area_height : Nat
  current_modifiers : Nat
  modifiers_when_clicked : Nat
  state : State
  deriving Repr, DecidableEq

/-- Controller::logical_mouse_position of scene/controller.rs. -/
def Controller.logical_mouse_position (c : Controller) : FP × FP :=
  (FP.div c.mouse_position.x (FP.val (c.area_width : ℚ)),
   FP.div c.mouse_position.y (FP.val (c.area_height : ℚ)))

/-- Controller::left_click_camera of scene/controller.rs.  On a press the
click origin and modifiers are recorded and, since the origin is then present
and released is false, the trailing branch reports MovementEnded.  On a
release, if the recorded origin (or NO_POS when none is recorded) is within
the 5-pixel threshold of the mouse position the origin is taken (none should
be impossible there, its unwrap being the modelled panic) and PixelSelected
is returned; otherwise the origin is cleared when present and MovementEnded is
returned, or Nothing when no origin was recorded. -/
def Controller.left_click_camera (c : Controller) (state : ElementState) :
    Option (Controller × Consequence) :=
  if state = ElementState.Pressed then
    some ({ c with last_left_clicked_position := some c.mouse_position,
                   modifiers_when_clicked := c.current_modifiers },
      Consequence.MovementEnded)
  else if FP.lt (position_difference (c.last_left_clicked_position.getD NO_POS)
      c.mouse_position) (FP.val 5) then
    match c.last_left_clicked_position with
    | some p => some ({ c with last_left_clicked_position := none },
        Consequence.PixelSelected p)
    | none => none
  else if c.last_left_clicked_position.isSome then
    some ({ c with last_left_clicked_position := none }, Consequence.MovementEnded)
  else
    some (c, Consequence.Nothing)

/-- The WindowEvent::MouseInput arm of Controller::input of
scene/controller.rs for the left button: the strand builder is probed from the
design layer only on a press, then the current controller state is matched. -/
def Controller.input_mouse_left (c : Controller) (state : ElementState)
    (strand_builder : Option StrandBuilder) : Option (Controller × Consequence) :=
  let builder := if state = ElementState.Pressed then strand_builder else none
  match c.state with
  | State.MoveCamera =>
      match builder with
      | some b =>
          some ({ c with state := State.Building b,
                         last_left_clicked_position := some c.mouse_position },
            Consequence.Nothing)
      | none => c.left_click_camera state
  | State.Rotate _ =>
      if state = ElementState.Pressed then
        some ({ c with last_left_clicked_position := some c.mouse_position },
          Consequence.InitRotation c.logical_mouse_position.1 c.logical_mouse_position.2)
      else
        some ({ c with last_left_clicked_position := none }, Consequence.MovementEnded)
  | State.Translate _ =>
      if state = ElementState.Pressed then
        some ({ c with last_left_clicked_position := some c.mouse_position },
          Consequence.InitTranslation c.logical_mouse_position.1 c.logical_mouse_position.2)
      else
        some ({ c with last_left_clicked_position := none }, Consequence.MovementEnded)
  | State.TogglingWidget =>
      if state = ElementState.Pressed then
        some (c, Consequence.ToggleWidget)
      else
        some ({ c with last_left_clicked_position := none }, Consequence.MovementEnded)
  | State.Building _ =>
      let c2 := if state = ElementState.Released then { c with state := State.MoveCamera } else c
      c2.left_click_camera state

/-- A controller in MoveCamera state with a recorded left-click origin at
(0, 0) and the mouse at (3, 4). -/
def clickController : Controller where
  last_left_clicked_position := some ⟨FP.val 0, FP.val 0⟩
  last_right_clicked_position := none
  mouse_position := ⟨FP.val 3, FP.val 4⟩
  area_width := 800
  area_height := 600
  current_modifiers := 0
  modifiers_when_clicked := 0
  state := State.MoveCamera

/-- The controller clickController with no recorded left-click origin. -/
def orphanController : Controller :=
  { clickController with last_left_clicked_position := none }

/-- The selection-related state of the Scene of src/scene.rs: the selected
element id, the selected design id, and, for each design, the argument last
forwarded to it through Design::update_selection (crate design, an external
collaborator; the model records the forwarded argument).  The GPU handles,
update queue, view and draw area of Scene belong to the renderer and are
outside the model. -/
structure Scene where
  selected_id : Option Nat
  selected_design : Option Nat
  designs : List (Option Nat)
  deriving Repr, DecidableEq

/-- Scene::click_on of src/scene.rs, given the decoded pick (selected_id,
design_id) returned by set_selected_id (the GPU readback itself is hardware
interaction outside the model; 24-bit colors make the decoded id at most
0xFFFFFF).  When the id is not the sentinel 0xFFFFFF the scene records the
selection and forwards it to the matching design; on the sentinel only the two
selection fields are cleared. -/
def Scene.click_on (s : Scene) (selected_id design_id : Nat) : Scene :=
  if selected_id ≠ 0xFFFFFF then
    { s with selected_id := some selected_id,
             selected_design := some design_id,
             designs := s.designs.mapIdx fun i _ =>
               if i = design_id then some selected_id else none }
  else
    { s with selected_id := none, selected_design := none }

/-- The program state the sentinel-decode requirement of the specification
speaks about: the Scene selection fields together with the candidate-owning
Data module of scene/data.rs.  The Scene of src/scene.rs holds no reference to
the Data module. -/
structure SceneApp where
  scene : Scene
  scene_data : Data

/-- The PixelSelected dispatch of a decoded pick on the program state:
Scene::click_on acts on the Scene fields; its body references no candidate
state. -/
def SceneApp.click_on (p : SceneApp) (selected_id design_id : Nat) : SceneApp :=
  { p with scene := p.scene.click_on selected_id design_id }

/-- A concrete program state with a live selection and a non-empty candidate
set. -/
def sentinelExample : SceneApp where
  scene := { selected_id := some 5, selected_design := some 0, designs := [some 5] }
  scene_data := { Data.new with candidates := [(0, 1)] }

/-- C1: group membership invariant.  For every design id, element id and
selection mode, with the design-topology queries consistent at the element,
the element belongs to the member set of its own group: get_group_identifier
succeeds with some group, get_group_member succeeds on that group, and the
element is a member. -/
theorem group_membership_invariant
    (designs : List Design3D) (mode : SelectionMode) (design_id element_id : Nat)
    (d : Design3D) (hd : designs.get? design_id = some d)
    (hc : d.ConsistentAt element_id) :
    ∃ gid members,
      get_group_identifier designs mode design_id element_id = some gid
        ∧ get_group_member designs mode design_id gid = some members
        ∧ element_id ∈ members := by
  obtain ⟨hall, hstrand, hhelix⟩ := hc
  have hd' : designs[design_id]? = some d := by simpa using hd
  cases mode with
  | Nucleotide =>
      exact ⟨element_id, {element_id}, rfl, rfl, Finset.mem_singleton_self _⟩
  | Design =>
      exact ⟨design_id, d.get_all_elements, rfl,
        by simp [get_group_member, hd'], hall⟩
  | Strand =>
      refine ⟨d.get_strand element_id, d.get_strand_elements (d.get_strand element_id),
        ?_, ?_, hstrand⟩
      · simp [get_group_identifier, hd']
      · simp [get_group_member, hd']
  | Helix =>
      refine ⟨d.get_helix element_id, d.get_helix_elements (d.get_helix element_id),
        ?_, ?_, hhelix⟩
      · simp [get_group_identifier, hd']
      · simp [get_group_member, hd']

/-- Witness for C1: the invariant instantiated on the concrete sample design,
in Strand mode, at design 0 and element 1. -/
theorem group_membership_invariant_witness :
    ∃ gid members,
      get_group_identifier [sampleDesign] SelectionMode.Strand 0 1 = some gid
        ∧ get_group_member [sampleDesign] SelectionMode.Strand 0 gid = some members
        ∧ 1 ∈ members :=
  group_membership_invariant [sampleDesign] SelectionMode.Strand 0 1 sampleDesign rfl
    ⟨by decide, by decide, by decide⟩

/-- C4: evaluation of Data::set_candidate at the failing input.  Starting from
the initial state (empty candidates, candidate_update false), the call
set_candidate(0, 0) changes the candidate set to the singleton (0, 0), yet the
candidate_update flag stays false: the source or-s the flag with the equality
of the old candidates and the new singleton, so a genuine mutation never sets
the flag. -/
theorem set_candidate_dirty_flag_eval :
    (Data.new.set_candidate 0 0).candidates = [(0, 0)]
      ∧ Data.new.candidates ≠ [(0, 0)]
      ∧ (Data.new.set_candidate 0 0).candidate_update = false :=
  ⟨rfl, by decide, rfl⟩

/-- C5: re-selection toggles the widget basis, not the dirty state.  When
set_selection succeeds, if the current selection is exactly the single element
being selected again and a widget basis is present, the basis is toggled and
the selection_update flag is left as it was; if a different element is
selected, selection_update becomes true and the basis is reset to World. -/
theorem set_selection_reselection (s : Data) (design_id element_id : Nat)
    (s' : Data) (sel : Selection)
    (h : s.set_selection design_id element_id = some (s', sel)) :
    ((∀ b, s.selected = [(design_id, element_id)] → s.widget_basis = some b →
        s'.widget_basis = some b.toggle ∧ s'.selection_update = s.selection_update)
      ∧ (s.selected ≠ [(design_id, element_id)] →
        s'.selection_update = true ∧ s'.widget_basis = some WidgetBasis.World)) := by
  constructor
  · intro b hsel hb
    simp only [Data.set_selection, if_pos hsel, hb] at h
    obtain ⟨pos, hpos, h⟩ := Option.bind_eq_some.mp h
    obtain ⟨gid, hgid, h⟩ := Option.map_eq_some'.mp h
    injection h with h1 h2
    subst h1
    exact ⟨rfl, rfl⟩
  · intro hsel
    simp only [Data.set_selection, if_neg hsel] at h
    obtain ⟨pos, hpos, h⟩ := Option.bind_eq_some.mp h
    obtain ⟨gid, hgid, h⟩ := Option.map_eq_some'.mp h
    injection h with h1 h2
    subst h1
    exact ⟨rfl, rfl⟩

/-- Witness for C5: re-selecting the element (0, 0) in a state where it is the
current single selection toggles the basis from World to Object and leaves the
selection_update flag false. -/
theorem set_selection_reselection_witness :
    ∃ s' sel,
      Data.set_selection reselectionState 0 0 = some (s', sel)
        ∧ s'.widget_basis = some WidgetBasis.Object
        ∧ s'.selection_update = false :=
  ⟨_, _, rfl,
    (set_selection_reselection reselectionState 0 0 _ _ rfl).1 WidgetBasis.World rfl rfl⟩

/-- C6: dirty-flag discipline of update_view.  After update_view all four
flags are false, every other field of the state is unchanged (in particular no
flag is set during the execution), and the issued updates are exactly the ones
whose flag was set, in the fixed order instances, selection, candidate,
matrices; each flag is cleared exactly when its update is issued. -/
theorem update_view_flag_discipline (s : Data) :
    ((s.update_view).1.instance_update = false
        ∧ (s.update_view).1.selection_update = false
        ∧ (s.update_view).1.candidate_update = false
        ∧ (s.update_view).1.matrices_update = false)
      ∧ ((s.update_view).1.designs = s.designs
        ∧ (s.update_view).1.selected = s.selected
        ∧ (s.update_view).1.candidates = s.candidates
        ∧ (s.update_view).1.selection_mode = s.selection_mode
        ∧ (s.update_view).1.action_mode = s.action_mode
        ∧ (s.update_view).1.selected_position = s.selected_position
        ∧ (s.update_view).1.widget_basis = s.widget_basis)
      ∧ (s.update_view).2 =
          (if s.instance_update then [ViewUpdateKind.instances] else [])
            ++ (if s.selection_update then [ViewUpdateKind.selection] else [])
            ++ (if s.candidate_update then [ViewUpdateKind.candidate] else [])
            ++ (if s.matrices_update then [ViewUpdateKind.matrices] else []) := by
  by_cases hi : s.instance_update <;> by_cases hs : s.selection_update <;>
    by_cases hc : s.candidate_update <;> by_cases hm : s.matrices_update <;>
    simp [Data.update_view, hi, hs, hc, hm]

/-- C7: the granularity toggle cycles Nucleotide to Design to Strand to Helix
and back to Nucleotide, four successive calls are the identity, and the
selected and candidate sequences, the action mode, and all four dirty flags
are unchanged. -/
theorem toggle_selection_mode_cycle (s : Data) :
    ((s.toggle_selection_mode).selected = s.selected
        ∧ (s.toggle_selection_mode).candidates = s.candidates
        ∧ (s.toggle_selection_mode).action_mode = s.action_mode
        ∧ (s.toggle_selection_mode).selection_update = s.selection_update
        ∧ (s.toggle_selection_mode).candidate_update = s.candidate_update
        ∧ (s.toggle_selection_mode).instance_update = s.instance_update
        ∧ (s.toggle_selection_mode).matrices_update = s.matrices_update)
      ∧ (s.selection_mode = SelectionMode.Nucleotide →
          (s.toggle_selection_mode).selection_mode = SelectionMode.Design)
      ∧ (s.selection_mode = SelectionMode.Design →
          (s.toggle_selection_mode).selection_mode = SelectionMode.Strand)
      ∧ (s.selection_mode = SelectionMode.Strand →
          (s.toggle_selection_mode).selection_mode = SelectionMode.Helix)
      ∧ (s.selection_mode = SelectionMode.Helix →
          (s.toggle_selection_mode).selection_mode = SelectionMode.Nucleotide)
      ∧ s.toggle_selection_mode.toggle_selection_mode.toggle_selection_mode.toggle_selection_mode
          = s := by
  refine ⟨⟨rfl, rfl, rfl, rfl, rfl, rfl, rfl⟩, ?_, ?_, ?_, ?_, ?_⟩
  · intro h
    simp [Data.toggle_selection_mode, h]
  · intro h
    simp [Data.toggle_selection_mode, h]
  · intro h
    simp [Data.toggle_selection_mode, h]
  · intro h
    simp [Data.toggle_selection_mode, h]
  · obtain ⟨ds, sel, cand, mode, act, pos, su, cu, iu, mu, wb⟩ := s
    cases mode <;> rfl

/-- Shape of a successful Data::set_selection: the new selected sequence is
the singleton that was selected and the new selected position is some value
(the position query succeeded). -/
theorem set_selection_shape (s : Data) (design_id element_id : Nat)
    (s' : Data) (sel : Selection)
    (h : s.set_selection design_id element_id = some (s', sel)) :
    s'.selected = [(design_id, element_id)] ∧ ∃ v, s'.selected_position = some v := by
  by_cases hsel : s.selected = [(design_id, element_id)]
  · simp only [Data.set_selection, if_pos hsel] at h
    obtain ⟨pos, hpos, h⟩ := Option.bind_eq_some.mp h
    obtain ⟨gid, hgid, h⟩ := Option.map_eq_some'.mp h
    injection h with h1 h2
    subst h1
    refine ⟨rfl, ?_⟩
    simp only [Data.selected_head_position, List.head?_cons] at hpos
    obtain ⟨v, hv, hvp⟩ := Option.map_eq_some'.mp hpos
    exact ⟨v, hvp.symm⟩
  · simp only [Data.set_selection, if_neg hsel] at h
    obtain ⟨pos, hpos, h⟩ := Option.bind_eq_some.mp h
    obtain ⟨gid, hgid, h⟩ := Option.map_eq_some'.mp h
    injection h with h1 h2
    subst h1
    refine ⟨rfl, ?_⟩
    simp only [Data.selected_head_position, List.head?_cons] at hpos
    obtain ⟨v, hv, hvp⟩ := Option.map_eq_some'.mp hpos
    exact ⟨v, hvp.symm⟩

/-- In every reachable state a non-empty selection comes with a widget basis:
set_selection installs the World basis whenever the selection changes and
toggles the present basis on re-selection.  This discharges, on all reachable
states, the basis-present hypothesis of the re-selection theorem. -/
theorem widget_basis_present (s : Data) (h : Data.Reach s) :
    s.selected ≠ [] → s.widget_basis.isSome = true := by
  induction h with
  | new => exact fun hne => absurd rfl hne
  | set_selection s design_id element_id s' sel hr hss ih =>
      intro _
      by_cases hsel : s.selected = [(design_id, element_id)]
      · simp only [Data.set_selection, if_pos hsel] at hss
        obtain ⟨pos, hpos, hss⟩ := Option.bind_eq_some.mp hss
        obtain ⟨gid, hgid, hss⟩ := Option.map_eq_some'.mp hss
        injection hss with h1 h2
        subst h1
        have hs : s.widget_basis.isSome = true := ih (by simp [hsel])
        simpa using hs
      · simp only [Data.set_selection, if_neg hsel] at hss
        obtain ⟨pos, hpos, hss⟩ := Option.bind_eq_some.mp hss
        obtain ⟨gid, hgid, hss⟩ := Option.map_eq_some'.mp hss
        injection hss with h1 h2
        subst h1
        rfl
  | reset_selection s hr ih => exact fun hne => absurd rfl hne
  | end_movement s s' hr he ih =>
      simp only [Data.end_movement] at he
      obtain ⟨pos, hp, hps⟩ := Option.map_eq_some'.mp he
      subst hps
      exact ih
  | clear_designs s hr ih => exact fun hne => absurd rfl hne
  | add_design s d hr ih => exact ih

/-- C8: selected-position invariant.  In every state reachable through the
public mutation operations, selected_position is some value whenever the
selected sequence is non-empty, and none whenever it is empty. -/
theorem selected_position_invariant (s : Data) (h : Data.Reach s) :
    (s.selected ≠ [] → s.selected_position.isSome = true)
      ∧ (s.selected = [] → s.selected_position = none) := by
  induction h with
  | new => exact ⟨fun hne => absurd rfl hne, fun _ => rfl⟩
  | set_selection s design_id element_id s' sel hr hss ih =>
      obtain ⟨hsel, v, hpos⟩ := set_selection_shape s design_id element_id s' sel hss
      constructor
      · intro _
        simp [hpos]
      · intro hempty
        rw [hsel] at hempty
        cases hempty
  | reset_selection s hr ih => exact ⟨fun hne => absurd rfl hne, fun _ => rfl⟩
  | end_movement s s' hr he ih =>
      simp only [Data.end_movement] at he
      obtain ⟨pos, hp, hps⟩ := Option.map_eq_some'.mp he
      subst hps
      cases hsel : s.selected with
      | nil =>
          constructor
          · intro hne
            exact absurd rfl hne
          · intro _
            simp only [Data.selected_head_position, hsel, List.head?_nil] at hp
            exact (Option.some.inj hp).symm
      | cons hd tl =>
          constructor
          · intro _
            simp only [Data.selected_head_position, hsel, List.head?_cons] at hp
            obtain ⟨v, hv, hvp⟩ := Option.map_eq_some'.mp hp
            simp [← hvp]
          · intro hempty
            cases hempty
  | clear_designs s hr ih => exact ⟨fun hne => absurd rfl hne, fun _ => rfl⟩
  | add_design s d hr ih => exact ih

/-- Witness for C8: the invariant instantiated at the initial state, reachable
by construction. -/
theorem selected_position_invariant_witness :
    (Data.new.selected ≠ [] → Data.new.selected_position.isSome = true)
      ∧ (Data.new.selected = [] → Data.new.selected_position = none) :=
  selected_position_invariant Data.new Data.Reach.new

/-- Folding the expansion step from a dead accumulator stays dead. -/
theorem union_fold_none (f : Nat × Nat → Option (Finset (Nat × Nat)))
    (l : List (Nat × Nat)) :
    l.foldl (fun acc p => acc.bind fun ret => (f p).map fun g => ret ∪ g) none = none := by
  induction l with
  | nil => rfl
  | cons a l ih => exact ih

/-- Characterization of the expansion fold: from a live accumulator it
succeeds exactly when every listed element expands, and then the result is the
accumulator joined with the union of the expansions over the set of listed
elements. -/
theorem union_fold_some (f : Nat × Nat → Option (Finset (Nat × Nat)))
    (l : List (Nat × Nat)) (r : Finset (Nat × Nat)) :
    l.foldl (fun acc p => acc.bind fun ret => (f p).map fun g => ret ∪ g) (some r)
      = if ∀ p ∈ l, (f p).isSome = true then
          some (r ∪ l.toFinset.biUnion fun p => (f p).getD ∅)
        else none := by
  induction l generalizing r with
  | nil => simp
  | cons a l ih =>
      rw [List.foldl_cons]
      cases hfa : f a with
      | none =>
          have h1 : ((some r).bind fun ret =>
              Option.map (fun g => ret ∪ g) (none : Option (Finset (Nat × Nat)))) = none := rfl
          rw [h1, union_fold_none]
          have h2 : ¬∀ p ∈ a :: l, (f p).isSome = true := by
            simp [List.forall_mem_cons, hfa]
          rw [if_neg h2]
      | some g =>
          have h1 : ((some r).bind fun ret =>
              Option.map (fun g' => ret ∪ g') (some g)) = some (r ∪ g) := rfl
          rw [h1, ih (r ∪ g)]
          by_cases hl : ∀ p ∈ l, (f p).isSome = true
          · have hcons : ∀ p ∈ a :: l, (f p).isSome = true := by
              rw [List.forall_mem_cons]
              exact ⟨by simp [hfa], hl⟩
            rw [if_pos hl, if_pos hcons]
            simp [hfa, List.toFinset_cons, Finset.biUnion_insert, Finset.union_assoc]
          · have hcons : ¬∀ p ∈ a :: l, (f p).isSome = true := fun hc =>
              hl fun p hp => hc p (List.mem_cons_of_mem a hp)
            rw [if_neg hl, if_neg hcons]

/-- C9: expansion is a pure function of the selected sequence regarded as a
set.  For a fixed design list, selection mode and object type, two states
whose selected sequences have the same set of elements (in particular any
permutation or duplication of the entries) expand to the same result; calling
expand_selection twice on the same state trivially yields the same result
since the embedding is functional. -/
theorem expand_selection_order_independent (s₁ s₂ : Data) (object_type : ObjectType)
    (hdes : s₁.designs = s₂.designs) (hmode : s₁.selection_mode = s₂.selection_mode)
    (hsel : s₁.selected.toFinset = s₂.selected.toFinset) :
    s₁.expand_selection object_type = s₂.expand_selection object_type := by
  have hmem : ∀ p, p ∈ s₁.selected ↔ p ∈ s₂.selected := fun p => by
    rw [← List.mem_toFinset, hsel, List.mem_toFinset]
  unfold Data.expand_selection
  rw [union_fold_some, union_fold_some, hdes, hmode, hsel]
  simp only [hmem]

/-- Witness for C9: on the sample design in Strand mode, the selected
sequences [(0,0), (0,1)] and [(0,1), (0,0), (0,0)] expand identically. -/
theorem expand_selection_order_independent_witness :
    Data.expand_selection expandStateA (ObjectType.Nucleotide 0)
      = Data.expand_selection expandStateB (ObjectType.Nucleotide 0) :=
  expand_selection_order_independent expandStateA expandStateB (ObjectType.Nucleotide 0)
    rfl rfl (by decide)

/-- Reduction of position_difference at the NO_POS sentinel: NaN propagates
through subtraction and absolute value, and f64::max of two NaN values is NaN,
whatever the second position is. -/
theorem position_difference_no_pos (m : PhysicalPosition) :
    position_difference NO_POS m = FP.nan := by
  cases m with
  | mk mx my => cases mx <;> cases my <;> rfl

/-- C2 counterexample: a pick decoding to the sentinel 0xFFFFFF does not clear
the candidate state.  In the concrete program state sentinelExample the
candidate set is the non-empty [(0, 1)] and is unchanged by the sentinel
dispatch, while the claim requires it to be cleared. -/
theorem click_on_sentinel_counterexample :
    (sentinelExample.click_on 0xFFFFFF 0).scene_data.candidates = [(0, 1)]
      ∧ [(0, 1)] ≠ ([] : List (Nat × Nat))
      ∧ (sentinelExample.click_on 0xFFFFFF 0).scene.selected_id = none :=
  ⟨rfl, by decide, rfl⟩

/-- C2 amended: on a pick whose decoded 24-bit id equals the sentinel
0xFFFFFF (the alpha channel, decoded as the design id, being arbitrary),
click_on clears the selection state — selected_id and selected_design both
become none, so no element and in particular not element 0 is selected — and
touches nothing else: the per-design selections and the candidate-owning Data
module are left untouched (the handler clears no candidate state). -/
theorem click_on_sentinel_clears_selection (p : SceneApp) (selected_id design_id : Nat)
    (h : selected_id = 0xFFFFFF) :
    (p.click_on selected_id design_id).scene.selected_id = none
      ∧ (p.click_on selected_id design_id).scene.selected_design = none
      ∧ (p.click_on selected_id design_id).scene.designs = p.scene.designs
      ∧ (p.click_on selected_id design_id).scene_data = p.scene_data := by
  subst h
  exact ⟨rfl, rfl, rfl, rfl⟩

/-- Witness for C2: the sentinel dispatch on the concrete program state
clears both selection fields and leaves the designs and the Data module
unchanged. -/
theorem click_on_sentinel_clears_selection_witness :
    (sentinelExample.click_on 0xFFFFFF 3).scene.selected_id = none
      ∧ (sentinelExample.click_on 0xFFFFFF 3).scene.selected_design = none
      ∧ (sentinelExample.click_on 0xFFFFFF 3).scene.designs = sentinelExample.scene.designs
      ∧ (sentinelExample.click_on 0xFFFFFF 3).scene_data = sentinelExample.scene_data :=
  click_on_sentinel_clears_selection sentinelExample 0xFFFFFF 3 rfl

/-- C3: click vs drag threshold.  With the controller in MoveCamera state, a
left-click origin recorded at P = (px, py) and the mouse at Q = (qx, qy), a
left-button release yields PixelSelected(P) when the Chebyshev distance
max(px - qx, py - qy) in absolute values is below 5 pixels, and MovementEnded
(no selection event) when it is at least 5; in both cases the origin is
cleared. -/
theorem left_click_threshold (c : Controller) (px py qx qy : ℚ) (b : Option StrandBuilder)
    (hstate : c.state = State.MoveCamera)
    (horigin : c.last_left_clicked_position = some ⟨FP.val px, FP.val py⟩)
    (hmouse : c.mouse_position = ⟨FP.val qx, FP.val qy⟩) :
    (max |px - qx| |py - qy| < 5 →
        c.input_mouse_left ElementState.Released b
          = some ({ c with last_left_clicked_position := none },
              Consequence.PixelSelected ⟨FP.val px, FP.val py⟩))
      ∧ (5 ≤ max |px - qx| |py - qy| →
        c.input_mouse_left ElementState.Released b
          = some ({ c with last_left_clicked_position := none },
              Consequence.MovementEnded)) := by
  have hdiff : position_difference ⟨FP.val px, FP.val py⟩ c.mouse_position
      = FP.val (max |px - qx| |py - qy|) := by
    rw [hmouse]
    rfl
  constructor
  · intro hlt
    simp [Controller.input_mouse_left, hstate, Controller.left_click_camera, horigin,
      hdiff, FP.lt, hlt]
  · intro hge
    have hnlt : ¬max |px - qx| |py - qy| < 5 := not_lt.mpr hge
    simp [Controller.input_mouse_left, hstate, Controller.left_click_camera, horigin,
      hdiff, FP.lt, hnlt]

/-- Witness for C3: origin (0, 0), release at (3, 4); the distance is 4 < 5
and the release reports PixelSelected at the origin. -/
theorem left_click_threshold_witness :
    clickController.input_mouse_left ElementState.Released none
      = some ({ clickController with last_left_clicked_position := none },
          Consequence.PixelSelected ⟨FP.val 0, FP.val 0⟩) :=
  (left_click_threshold clickController 0 0 3 4 none rfl rfl rfl).1 (by norm_num)

/-- C10: an orphan left release is safe.  A left-button release received in
MoveCamera state with no recorded left-click origin returns Nothing with the
controller unchanged; the NO_POS NaN sentinel makes the 5-pixel comparison
false, so the PixelSelected branch and its unwrap of the absent origin are
unreachable and the call cannot panic (the result is some, never none). -/
theorem orphan_left_release_safe (c : Controller) (b : Option StrandBuilder)
    (hstate : c.state = State.MoveCamera)
    (horigin : c.last_left_clicked_position = none) :
    c.input_mouse_left ElementState.Released b = some (c, Consequence.Nothing) := by
  simp [Controller.input_mouse_left, hstate, Controller.left_click_camera, horigin,
    position_difference_no_pos, FP.lt]

/-- Witness for C10: the concrete controller with no recorded origin returns
Nothing, unchanged, on a left release. -/
theorem orphan_left_release_safe_witness :
    orphanController.input_mouse_left ElementState.Released none
      = some (orphanController, Consequence.Nothing) :=
  orphan_left_release_safe orphanController none rfl rfl

end Ensnano
